import Mathlib

/-!
Shallow embedding of the StudentDiary backend (src/models/User.js).

The server is an Express application over a Mongo document store.  Each
collection is modelled as a Lean list; each route handler becomes a pure
function from the store (and the request data) to a result and a new store.
External libraries are modelled by their contracts:

* `bcryptjs` — `bcryptHash`/`bcryptCompare` satisfy
  `bcryptCompare p (bcryptHash p) = true`; the concrete definition is a
  stand-in for the one-way hash, used only through that contract.
* `jsonwebtoken` — a token is its payload (`userId`, `role`, `exp`)
  together with a signature string; `jwtSign` produces the signature with
  `jwtMac` from the process secret, `jwtVerify` recomputes and compares it
  and checks expiry, which models signature checking of a real JWT.
* HTTP/body parsing is outside the embedded core (the spec excludes it);
  request bodies arrive as Lean records.

Mongo `_id` values are modelled as `Nat`, drawn from a `nextId` counter on
the store.  Dates/times are milliseconds since the epoch (`Nat`), matching
the JavaScript `Date.getTime()` arithmetic the code performs.
-/

set_option autoImplicit false

namespace StudentDiary

/-- Generic list update used to model Mongoose in-place document updates
(`findOneAndUpdate`, and `findOne` followed by mutation + `save`): rewrite
the first element satisfying `p` with `f`, returning the rewritten element
(`none` when nothing matched) and the resulting collection. -/
def updateFirst {α : Type} (p : α → Bool) (f : α → α) : List α → Option α × List α
  | [] => (none, [])
  | x :: xs =>
    if p x then (some (f x), f x :: xs)
    else
      let r := updateFirst p f xs
      (r.1, x :: r.2)

/-- Model of `bcrypt.hash(plaintext, 10)`: a stand-in one-way digest whose
only property used anywhere is the round-trip contract with
`bcryptCompare`. -/
def bcryptHash (plaintext : String) : String :=
  "2b10$" ++ plaintext

/-- Model of `bcrypt.compare(plaintext, digest)`: true exactly when the
digest was produced from this plaintext. -/
def bcryptCompare (plaintext digest : String) : Bool :=
  digest == bcryptHash plaintext

/-- A signed token as issued by `jwt.sign({userId, role}, secret,
{expiresIn: '1h'})`: the payload carried in clear plus a signature
string. -/
structure Token where
  userId : Nat
  role : String
  exp : Nat
  sig : String
deriving DecidableEq

/-- Model of the HMAC the JWT library computes over payload and secret. -/
def jwtMac (secret : String) (userId : Nat) (role : String) (exp : Nat) : String :=
  secret ++ "#" ++ toString userId ++ "#" ++ role ++ "#" ++ toString exp

/-- `jwt.sign({userId, role}, JWT_SECRET, {expiresIn: '1h'})` at time
`now` (seconds): payload plus a valid signature, expiring in 3600 s. -/
def jwtSign (secret : String) (now : Nat) (userId : Nat) (role : String) : Token :=
  { userId := userId, role := role, exp := now + 3600,
    sig := jwtMac secret userId role (now + 3600) }

/-- The authenticated principal a verified token yields (`req.user`). -/
structure Session where
  userId : Nat
  role : String
deriving DecidableEq

/-- `jwt.verify(token, JWT_SECRET, cb)`: succeeds only when the signature
matches the payload under the secret and the token is not expired; any
tampering with payload or signature, or expiry, yields an error
(`none`). -/
def jwtVerify (secret : String) (now : Nat) (t : Token) : Option Session :=
  if t.sig = jwtMac secret t.userId t.role t.exp ∧ now < t.exp then
    some { userId := t.userId, role := t.role }
  else
    none

/-- `authenticateToken` middleware (User.js lines 165-176).  The header
argument is the token extracted from `authorization` (`none` covers every
falsy path of `authHeader && authHeader.split(' ')[1]`).  A missing token
answers 401; a token the JWT library rejects answers 403.  An `Except.ok`
is the only path on which `next()` runs, i.e. on which a route handler is
reached. -/
def authenticateToken (secret : String) (now : Nat) (token : Option Token) :
    Except (Nat × String) Session :=
  match token with
  | none => .error (401, "No token provided")
  | some t =>
    match jwtVerify secret now t with
    | none => .error (403, "Invalid or expired token")
    | some s => .ok s

/-- A `users` collection document (schema at User.js lines 61-69);
`password` stores the bcrypt digest. -/
structure UserRec where
  id : Nat
  email : String
  password : String
  role : String
  name : String
  additionalInfo : String
  degree : String
  department : String
deriving DecidableEq

/-- A file reference `{name, url}` as stored inside subjects. -/
structure FileRef where
  name : String
  url : String
deriving DecidableEq

/-- A section of a subject unit. -/
structure SectionRec where
  title : String
  content : String
  files : List FileRef
deriving DecidableEq

/-- A unit of a subject. -/
structure UnitRec where
  title : String
  sections : List SectionRec
deriving DecidableEq

/-- A `subjects` collection document (schema at User.js lines 74-87). -/
structure SubjectRec where
  id : Nat
  title : String
  degree : String
  department : String
  creator : Nat
  units : List UnitRec
deriving DecidableEq

/-- A `grades` collection document (schema at User.js lines 110-116). -/
structure GradeRec where
  id : Nat
  student : Nat
  subject : Nat
  cycleTest1 : Int
  cycleTest2 : Int
  assignments : Int
deriving DecidableEq

/-- An `academiccalendars` collection document (schema at User.js lines
143-147). -/
structure CalEntry where
  day : String
  date : String
  description : String
deriving DecidableEq

/-- A `tasks` collection document (schema at User.js lines 152-160);
`dueDate` in epoch milliseconds. -/
structure TaskRec where
  id : Nat
  text : String
  category : String
  priority : String
  dueDate : Nat
  completed : Bool
  creator : Nat
  notificationSent : Bool
deriving DecidableEq

/-- The document store: one list per collection touched by the embedded
routes, plus the id counter modelling ObjectId generation. -/
structure Store where
  users : List UserRec
  subjects : List SubjectRec
  grades : List GradeRec
  calendar : List CalEntry
  tasks : List TaskRec
  nextId : Nat
deriving DecidableEq

/-- Model of express-validator's `isEmail`, abstracted to the shape the
claims need: the string carries an at-sign.  It is used only as a
pass/fail gate in front of the auth routes. -/
def isEmailLike (s : String) : Bool :=
  s.data.contains '@'

/-- `POST /api/auth/signup` request body. -/
structure SignupReq where
  email : String
  password : String
  role : String
  name : String
  additionalInfo : String
  degree : String
  department : String
deriving DecidableEq

/-- The validator chain on the signup route (User.js lines 179-185):
email shape, password length ≥ 6, role in the enum, and non-empty name,
degree, department. -/
def signupValid (r : SignupReq) : Bool :=
  isEmailLike r.email
    && decide (6 ≤ r.password.length)
    && (r.role == "teacher" || r.role == "student" || r.role == "alumni")
    && r.name != ""
    && r.degree != ""
    && r.department != ""

/-- Outcome of the signup route, one constructor per `return` in the
handler. -/
inductive SignupResult where
  | validationError
  | duplicateEmail
  | created (token : Token) (role : String) (name : String)
deriving DecidableEq

/-- HTTP status carried by each signup outcome. -/
def signupStatus : SignupResult → Nat
  | .validationError => 400
  | .duplicateEmail => 400
  | .created _ _ _ => 201

/-- `POST /api/auth/signup` handler (User.js lines 186-220): validate,
reject a duplicate email with 400, otherwise hash the password, insert the
new user and answer 201 with a fresh token. -/
def postAuthSignup (secret : String) (now : Nat) (st : Store) (r : SignupReq) :
    SignupResult × Store :=
  if signupValid r = false then (.validationError, st)
  else
    match st.users.find? (fun u => u.email == r.email) with
    | some _ => (.duplicateEmail, st)
    | none =>
      let user : UserRec :=
        { id := st.nextId, email := r.email, password := bcryptHash r.password,
          role := r.role, name := r.name, additionalInfo := r.additionalInfo,
          degree := r.degree, department := r.department }
      let token := jwtSign secret now user.id user.role
      (.created token user.role user.name,
        { st with users := st.users ++ [user], nextId := st.nextId + 1 })

/-- `POST /api/auth/login` request body.  The route's `.exists()`
validators (password, role present) are guaranteed by the record type. -/
structure LoginReq where
  email : String
  password : String
  role : String
deriving DecidableEq

/-- Outcome of the login route, one constructor per `return` in the
handler. -/
inductive LoginResult where
  | validationError
  | invalidCredentials
  | roleMismatch (message : String)
  | success (token : Token) (role : String) (name : String)
deriving DecidableEq

/-- HTTP status carried by each login outcome. -/
def loginStatus : LoginResult → Nat
  | .validationError => 400
  | .invalidCredentials => 400
  | .roleMismatch _ => 403
  | .success _ _ _ => 200

/-- `POST /api/auth/login` handler (User.js lines 227-265): validate the
body, look the user up by email, reject a stated role different from the
stored one with 403 *before* comparing passwords, then check the password
and issue a token. -/
def postAuthLogin (secret : String) (now : Nat) (st : Store) (r : LoginReq) :
    LoginResult :=
  if isEmailLike r.email = false then .validationError
  else
    match st.users.find? (fun u => u.email == r.email) with
    | none => .invalidCredentials
    | some user =>
      if user.role ≠ r.role then
        .roleMismatch
          ("Access denied. Please login with your assigned role as "
            ++ user.role ++ ".")
      else if bcryptCompare r.password user.password = false then
        .invalidCredentials
      else
        .success (jwtSign secret now user.id user.role) user.role user.name

/-- Outcome of a subject-listing route. -/
inductive ListSubjectsResult where
  | ok (subjects : List SubjectRec)
  | invalidRole
  | serverError
deriving DecidableEq

/-- `GET /api/subjects/student` handler (User.js lines 293-302): load the
caller and filter subjects by the caller's degree and department.  A
missing user makes `user.degree` throw on `null`, caught as 500
(`serverError`). -/
def getSubjectsStudent (st : Store) (uid : Nat) : ListSubjectsResult :=
  match st.users.find? (fun u => u.id == uid) with
  | none => .serverError
  | some user =>
    .ok (st.subjects.filter
      (fun s => s.degree == user.degree && s.department == user.department))

/-- `GET /api/subjects/:role` handler (User.js lines 317-332).  Express
dispatches to handlers in registration order, so this first registration
receives every request to the path; the second registration of the same
path (lines 468-484) is unreachable.  For `role = "teacher"` it filters by
creator; for `role = "student"` it runs `Subject.find()` with no filter at
all and returns the whole collection. -/
def getSubjectsByRole (st : Store) (uid : Nat) (roleParam : String) :
    ListSubjectsResult :=
  if roleParam == "teacher" then
    .ok (st.subjects.filter (fun s => s.creator == uid))
  else if roleParam == "student" then
    .ok st.subjects
  else
    .invalidRole

/-- `GET /api/subjects` handler (User.js lines 577-591): teachers get the
subjects they created, everyone else gets the subjects matching their own
degree and department. -/
def getSubjects (st : Store) (uid : Nat) : ListSubjectsResult :=
  match st.users.find? (fun u => u.id == uid) with
  | none => .serverError
  | some user =>
    if user.role == "teacher" then
      .ok (st.subjects.filter (fun s => s.creator == user.id))
    else
      .ok (st.subjects.filter
        (fun s => s.degree == user.degree && s.department == user.department))

/-- `PUT /api/subjects/:subjectId/units` handler (User.js lines 334-351):
`findOneAndUpdate({_id, creator: caller}, {$set: {units}})` — only a
document that has both the requested id and the caller as creator is
rewritten; no match answers 404 and leaves the store untouched. -/
def putSubjectUnits (st : Store) (uid : Nat) (subjectId : Nat)
    (units : List UnitRec) : Except (Nat × String) SubjectRec × Store :=
  let r := updateFirst
    (fun s => s.id == subjectId && s.creator == uid)
    (fun s => { s with units := units }) st.subjects
  match r.1 with
  | none =>
    (.error (404, "Subject not found or you do not have permission to update it"),
      st)
  | some s => (.ok s, { st with subjects := r.2 })

/-- `POST /api/grades` handler (User.js lines 534-559): find the grade
document for `(student, subject)`; if one exists overwrite its three score
fields in place, otherwise insert a fresh document.  Either way the route
answers 201 with the saved record. -/
def postGrades (st : Store) (student subject : Nat)
    (cycleTest1 cycleTest2 assignments : Int) : GradeRec × Store :=
  let key := fun (g : GradeRec) => g.student == student && g.subject == subject
  match st.grades.find? key with
  | some _ =>
    let r := updateFirst key
      (fun g => { g with cycleTest1 := cycleTest1, cycleTest2 := cycleTest2,
                         assignments := assignments }) st.grades
    match r.1 with
    | some g => (g, { st with grades := r.2 })
    | none =>
      -- unreachable: `find?` succeeded, so `updateFirst` rewrites a document
      (⟨st.nextId, student, subject, cycleTest1, cycleTest2, assignments⟩, st)
  | none =>
    let g : GradeRec :=
      { id := st.nextId, student := student, subject := subject,
        cycleTest1 := cycleTest1, cycleTest2 := cycleTest2,
        assignments := assignments }
    (g, { st with grades := st.grades ++ [g], nextId := st.nextId + 1 })

/-- The selection predicate of the deadline sweep (User.js lines 831-836):
the caller's own, uncompleted, not-yet-notified tasks whose due date lies
strictly inside the next 24 hours (`$gt: now, $lt: now + 24h` in
milliseconds). -/
def qualifiesDeadline (uid : Nat) (now : Nat) (t : TaskRec) : Bool :=
  t.creator == uid
    && t.completed == false
    && t.notificationSent == false
    && decide (now < t.dueDate)
    && decide (t.dueDate < now + 24 * 60 * 60 * 1000)

/-- The per-document effect of the sweep's
`updateMany({_id: {$in: ids}}, {notificationSent: true})`: a task whose id
is among `ids` gets `notificationSent` set, every other task is left
alone. -/
def markSent (ids : List Nat) (t : TaskRec) : TaskRec :=
  if ids.contains t.id then { t with notificationSent := true } else t

/-- `GET /api/tasks/check-deadlines` handler (User.js lines 826-848):
select the qualifying tasks, then `updateMany` sets `notificationSent` on
every task whose id is among the selected ids, and the selected tasks are
returned. -/
def getTasksCheckDeadlines (st : Store) (uid : Nat) (now : Nat) :
    List TaskRec × Store :=
  let tasks := st.tasks.filter (qualifiesDeadline uid now)
  let ids := tasks.map (fun t => t.id)
  (tasks, { st with tasks := st.tasks.map (markSent ids) })

/-- JavaScript `s.padStart(2, '0')`: left-pad with zeroes to length 2. -/
def padStart2 (s : String) : String :=
  if s.length < 2 then String.mk (List.replicate (2 - s.length) '0') ++ s else s

/-- JavaScript `s.split('.')` over the character list: an empty string
splits to `[""]`, every dot opens a new chunk, so `"05.11.2025"` splits to
`["05", "11", "2025"]`. -/
def splitDotChars : List Char → List String
  | [] => [""]
  | c :: cs =>
    let rest := splitDotChars cs
    if c = '.' then "" :: rest
    else
      match rest with
      | [] => [String.mk [c]]
      | r :: rs => String.mk (c :: r.data) :: rs

/-- JavaScript `s.split('.')` as the calendar upload uses it. -/
def splitDot (s : String) : List String :=
  splitDotChars s.data

/-- The per-entry date rewrite of the calendar upload (User.js lines
740-747): split the date on `'.'`, destructure into day, month, year, and
rebuild as `year-month-day` with the day and month padded.  When the split
yields no second component, `month` is `undefined` and
`month.padStart` throws (`none`, surfacing as the route's 500); a missing
third component leaves `year` as `undefined`, which the template literal
renders as the string `"undefined"`. -/
def formatCalDate (d : String) : Option String :=
  let parts := splitDot d
  match parts.get? 0, parts.get? 1 with
  | some day, some month =>
    let year := (parts.get? 2).getD "undefined"
    some (year ++ "-" ++ padStart2 month ++ "-" ++ padStart2 day)
  | _, _ => none

/-- `calendarData.map(...)` over the date rewrite; the first entry whose
rewrite throws aborts the whole map. -/
def mapFormatCal : List CalEntry → Option (List CalEntry)
  | [] => some []
  | e :: es =>
    match formatCalDate e.date with
    | none => none
    | some d =>
      match mapFormatCal es with
      | none => none
      | some rest => some ({ e with date := d } :: rest)

/-- Outcome of the calendar upload route. -/
inductive UploadCalResult where
  | accessDenied
  | serverError
  | created (entries : List CalEntry)
deriving DecidableEq

/-- `POST /api/academic-calendar/upload` handler (User.js lines 721-761),
taking the parsed JSON array (file handling and `JSON.parse` are outside
the embedded core): teachers only; rewrite every date; then
`deleteMany({})` followed by `insertMany(calendarData)` replaces the whole
collection with the rewritten entries.  A throw during the rewrite happens
before the delete, leaving the store untouched. -/
def postAcademicCalendarUpload (st : Store) (callerRole : String)
    (entries : List CalEntry) : UploadCalResult × Store :=
  if callerRole ≠ "teacher" then (.accessDenied, st)
  else
    match mapFormatCal entries with
    | none => (.serverError, st)
    | some formatted => (.created formatted, { st with calendar := formatted })

/-! ### Helper lemmas about the collection-update model -/

theorem updateFirst_fst {α : Type} (p : α → Bool) (f : α → α) (l : List α) :
    (updateFirst p f l).1 = (l.find? p).map f := by
  induction l with
  | nil => rfl
  | cons x xs ih =>
    by_cases hx : p x
    · simp [updateFirst, hx]
    · simp [updateFirst, hx, ih]

theorem updateFirst_of_all_neg {α : Type} (p : α → Bool) (f : α → α) (l : List α)
    (h : ∀ x ∈ l, p x = false) : updateFirst p f l = (none, l) := by
  induction l with
  | nil => rfl
  | cons x xs ih =>
    have hx : p x = false := h x (List.mem_cons_self x xs)
    have hxs := ih (fun y hy => h y (List.mem_cons_of_mem x hy))
    simp [updateFirst, hx, hxs]

theorem updateFirst_filter {α : Type} (p : α → Bool) (f : α → α)
    (hpf : ∀ x, p (f x) = p x) (l : List α)
    (h : (l.filter p).length ≤ 1) :
    ((updateFirst p f l).2).filter p = (l.filter p).map f := by
  induction l with
  | nil => rfl
  | cons x xs ih =>
    by_cases hx : p x
    · have hxs : xs.filter p = [] := by
        have hlen : (x :: xs.filter p).length ≤ 1 := by
          simpa [List.filter_cons_of_pos hx] using h
        have : (xs.filter p).length = 0 := by
          simpa [Nat.succ_le_succ_iff] using hlen
        exact List.length_eq_zero.mp this
      simp [updateFirst, hx, List.filter_cons_of_pos, hpf, hxs]
    · have hlen : (xs.filter p).length ≤ 1 := by
        simpa [List.filter_cons_of_neg hx] using h
      simp [updateFirst, hx, List.filter_cons_of_neg, ih hlen]

/-! ### Claims -/

/-- Claim C1, counterexample.  The claim states that a bearer token
failing validation terminates the request with HTTP 401.  On the code a
token with a tampered signature is rejected by `jwt.verify` and the guard
answers 403, not 401 (User.js line 172). -/
theorem c1_counterexample_invalid_token_gets_403 :
    jwtVerify "topsecret" 1000 ⟨1, "student", 2000, "tampered"⟩ = none ∧
    authenticateToken "topsecret" 1000 (some ⟨1, "student", 2000, "tampered"⟩) =
      .error (403, "Invalid or expired token") ∧
    (403 : Nat) ≠ 401 := by
  refine ⟨by decide, rfl, by decide⟩

/-- Claim C1, amended.  For every request whose bearer token fails
validation (invalid signature or expired), the guard terminates the
request before any route handler runs with HTTP status 403; the 401
status is produced only for requests that carry no token at all. -/
theorem c1_amended_guard_403_on_invalid_401_on_missing (secret : String)
    (now : Nat) (t : Token) (h : jwtVerify secret now t = none) :
    authenticateToken secret now (some t) = .error (403, "Invalid or expired token") ∧
    authenticateToken secret now none = .error (401, "No token provided") := by
  constructor
  · simp [authenticateToken, h]
  · rfl

/-- Witness for the amended C1 theorem at a concrete tampered token. -/
theorem c1_amended_guard_witness :
    jwtVerify "topsecret" 1000 ⟨1, "student", 2000, "tampered"⟩ = none ∧
    (authenticateToken "topsecret" 1000 (some ⟨1, "student", 2000, "tampered"⟩) =
        .error (403, "Invalid or expired token") ∧
      authenticateToken "topsecret" 1000 none = .error (401, "No token provided")) :=
  ⟨by decide,
    c1_amended_guard_403_on_invalid_401_on_missing "topsecret" 1000
      ⟨1, "student", 2000, "tampered"⟩ (by decide)⟩

/-- Claim C3.  A login whose email matches a stored user but whose stated
role differs from the stored role fails with the 403 role-mismatch error,
uniformly in the supplied password (the role check at User.js line 245
precedes the bcrypt comparison at line 252). -/
theorem c3_role_mismatch_403_regardless_of_password (secret : String) (now : Nat)
    (st : Store) (email stated : String) (u : UserRec)
    (hv : isEmailLike email = true)
    (hfind : st.users.find? (fun x => x.email == email) = some u)
    (hrole : u.role ≠ stated) :
    ∀ password : String,
      postAuthLogin secret now st ⟨email, password, stated⟩ =
        .roleMismatch ("Access denied. Please login with your assigned role as "
          ++ u.role ++ ".") ∧
      loginStatus (postAuthLogin secret now st ⟨email, password, stated⟩) = 403 := by
  intro password
  have heq : postAuthLogin secret now st ⟨email, password, stated⟩ =
      .roleMismatch ("Access denied. Please login with your assigned role as "
        ++ u.role ++ ".") := by
    unfold postAuthLogin
    simp [hv, hfind, hrole]
  exact ⟨heq, by rw [heq]; rfl⟩

/-- Witness for C3 at a concrete store, with the *correct* password
supplied: the role mismatch still answers 403. -/
theorem c3_role_mismatch_witness :
    isEmailLike "a@b.com" = true ∧
    (Store.mk [⟨1, "a@b.com", bcryptHash "secret1", "teacher", "Ada", "", "BCA", "CS"⟩]
        [] [] [] [] 2).users.find? (fun x => x.email == "a@b.com") =
      some ⟨1, "a@b.com", bcryptHash "secret1", "teacher", "Ada", "", "BCA", "CS"⟩ ∧
    ("teacher" : String) ≠ "student" ∧
    (postAuthLogin "sec" 0
        (Store.mk [⟨1, "a@b.com", bcryptHash "secret1", "teacher", "Ada", "", "BCA", "CS"⟩]
          [] [] [] [] 2) ⟨"a@b.com", "secret1", "student"⟩ =
        .roleMismatch ("Access denied. Please login with your assigned role as "
          ++ "teacher" ++ ".") ∧
      loginStatus (postAuthLogin "sec" 0
        (Store.mk [⟨1, "a@b.com", bcryptHash "secret1", "teacher", "Ada", "", "BCA", "CS"⟩]
          [] [] [] [] 2) ⟨"a@b.com", "secret1", "student"⟩) = 403) :=
  ⟨by decide, by decide, by decide,
    c3_role_mismatch_403_regardless_of_password "sec" 0
      (Store.mk [⟨1, "a@b.com", bcryptHash "secret1", "teacher", "Ada", "", "BCA", "CS"⟩]
        [] [] [] [] 2) "a@b.com" "student"
      ⟨1, "a@b.com", bcryptHash "secret1", "teacher", "Ada", "", "BCA", "CS"⟩
      (by decide) (by decide) (by decide) "secret1"⟩

/-- Claim C9.  A signup whose email is already registered fails with the
400 duplicate-email error and leaves the user collection (indeed the
whole store) exactly unchanged (User.js lines 195-198). -/
theorem c9_duplicate_email_signup_rejected (secret : String) (now : Nat)
    (st : Store) (r : SignupReq) (u : UserRec)
    (hv : signupValid r = true)
    (hmem : u ∈ st.users) (hemail : u.email = r.email) :
    postAuthSignup secret now st r = (.duplicateEmail, st) ∧
    signupStatus (postAuthSignup secret now st r).1 = 400 := by
  have hfind : ∃ v, st.users.find? (fun x => x.email == r.email) = some v := by
    cases hf : st.users.find? (fun x => x.email == r.email) with
    | some v => exact ⟨v, rfl⟩
    | none =>
      have := List.find?_eq_none.mp hf u hmem
      simp [hemail] at this
  obtain ⟨v, hfv⟩ := hfind
  have heq : postAuthSignup secret now st r = (.duplicateEmail, st) := by
    unfold postAuthSignup
    simp [hv, hfv]
  exact ⟨heq, by rw [heq]; rfl⟩

/-- Witness for C9: signing up a second account with an already used
email fails and the store is unchanged. -/
theorem c9_duplicate_email_witness :
    signupValid ⟨"a@b.com", "password2", "student", "Eve", "", "BCA", "CS"⟩ = true ∧
    (⟨1, "a@b.com", bcryptHash "secret1", "teacher", "Ada", "", "BCA", "CS"⟩ : UserRec) ∈
      (Store.mk [⟨1, "a@b.com", bcryptHash "secret1", "teacher", "Ada", "", "BCA", "CS"⟩]
        [] [] [] [] 2).users ∧
    ("a@b.com" : String) = "a@b.com" ∧
    (postAuthSignup "sec" 0
        (Store.mk [⟨1, "a@b.com", bcryptHash "secret1", "teacher", "Ada", "", "BCA", "CS"⟩]
          [] [] [] [] 2)
        ⟨"a@b.com", "password2", "student", "Eve", "", "BCA", "CS"⟩ =
      (.duplicateEmail,
        Store.mk [⟨1, "a@b.com", bcryptHash "secret1", "teacher", "Ada", "", "BCA", "CS"⟩]
          [] [] [] [] 2) ∧
      signupStatus (postAuthSignup "sec" 0
        (Store.mk [⟨1, "a@b.com", bcryptHash "secret1", "teacher", "Ada", "", "BCA", "CS"⟩]
          [] [] [] [] 2)
        ⟨"a@b.com", "password2", "student", "Eve", "", "BCA", "CS"⟩).1 = 400) :=
  ⟨by decide, by decide, rfl,
    c9_duplicate_email_signup_rejected "sec" 0
      (Store.mk [⟨1, "a@b.com", bcryptHash "secret1", "teacher", "Ada", "", "BCA", "CS"⟩]
        [] [] [] [] 2)
      ⟨"a@b.com", "password2", "student", "Eve", "", "BCA", "CS"⟩
      ⟨1, "a@b.com", bcryptHash "secret1", "teacher", "Ada", "", "BCA", "CS"⟩
      (by decide) (by decide) rfl⟩

/-- Claim C10.  When the stated role differs from the stored role, the
login handler produces the same 403 rejection for every supplied password
(the password is never consulted), and the rejection message carries the
account's stored role as a substring — so knowledge of a registered email
alone reveals that account's role. -/
theorem c10_role_mismatch_leaks_stored_role (secret : String) (now : Nat)
    (st : Store) (email stated : String) (u : UserRec)
    (hv : isEmailLike email = true)
    (hfind : st.users.find? (fun x => x.email == email) = some u)
    (hrole : u.role ≠ stated) :
    ∃ msg : String, List.IsInfix u.role.data msg.data ∧
      ∀ password : String,
        postAuthLogin secret now st ⟨email, password, stated⟩ = .roleMismatch msg ∧
        loginStatus (.roleMismatch msg) = 403 := by
  refine ⟨"Access denied. Please login with your assigned role as " ++ u.role ++ ".",
    ?_, ?_⟩
  · refine ⟨("Access denied. Please login with your assigned role as ").data,
      (".").data, ?_⟩
    simp [String.data_append]
  · intro password
    constructor
    · unfold postAuthLogin
      simp [hv, hfind, hrole]
    · rfl

/-- Witness for C10 at a concrete store. -/
theorem c10_role_mismatch_leak_witness :
    isEmailLike "a@b.com" = true ∧
    (Store.mk [⟨1, "a@b.com", bcryptHash "secret1", "teacher", "Ada", "", "BCA", "CS"⟩]
        [] [] [] [] 2).users.find? (fun x => x.email == "a@b.com") =
      some ⟨1, "a@b.com", bcryptHash "secret1", "teacher", "Ada", "", "BCA", "CS"⟩ ∧
    ("teacher" : String) ≠ "student" ∧
    (∃ msg : String, List.IsInfix ("teacher").data msg.data ∧
      ∀ password : String,
        postAuthLogin "sec" 0
          (Store.mk [⟨1, "a@b.com", bcryptHash "secret1", "teacher", "Ada", "", "BCA", "CS"⟩]
            [] [] [] [] 2) ⟨"a@b.com", password, "student"⟩ = .roleMismatch msg ∧
        loginStatus (.roleMismatch msg) = 403) :=
  ⟨by decide, by decide, by decide,
    c10_role_mismatch_leaks_stored_role "sec" 0
      (Store.mk [⟨1, "a@b.com", bcryptHash "secret1", "teacher", "Ada", "", "BCA", "CS"⟩]
        [] [] [] [] 2) "a@b.com" "student"
      ⟨1, "a@b.com", bcryptHash "secret1", "teacher", "Ada", "", "BCA", "CS"⟩
      (by decide) (by decide) (by decide)⟩

/-- Claim C4.  Signing up with a valid payload on a fresh email answers
201, and a subsequent login with the same email, password and role
answers 200 with a token whose payload carries exactly the identity and
role created at signup (User.js lines 179-220 and 223-265). -/
theorem c4_signup_then_login_roundtrip (secret : String) (now later : Nat)
    (st : Store) (r : SignupReq)
    (hv : signupValid r = true)
    (hfresh : ∀ u ∈ st.users, u.email ≠ r.email) :
    ∃ (tok1 : Token) (st' : Store) (u : UserRec) (tok2 : Token),
      postAuthSignup secret now st r = (.created tok1 r.role r.name, st') ∧
      signupStatus (.created tok1 r.role r.name) = 201 ∧
      st'.users = st.users ++ [u] ∧ u.role = r.role ∧
      postAuthLogin secret later st' ⟨r.email, r.password, r.role⟩ =
        .success tok2 r.role r.name ∧
      loginStatus (.success tok2 r.role r.name) = 200 ∧
      tok2.userId = u.id ∧ tok2.role = u.role ∧
      tok1.userId = u.id ∧ tok1.role = u.role := by
  have hfind : st.users.find? (fun x => x.email == r.email) = none := by
    refine List.find?_eq_none.mpr (fun x hx => ?_)
    simp [hfresh x hx]
  have hmail : isEmailLike r.email = true := by
    have hv' := hv
    simp only [signupValid, Bool.and_eq_true] at hv'
    exact hv'.1.1.1.1.1
  refine ⟨jwtSign secret now st.nextId r.role,
    { st with
        users := st.users ++ [UserRec.mk st.nextId r.email (bcryptHash r.password)
          r.role r.name r.additionalInfo r.degree r.department],
        nextId := st.nextId + 1 },
    UserRec.mk st.nextId r.email (bcryptHash r.password) r.role r.name
      r.additionalInfo r.degree r.department,
    jwtSign secret later st.nextId r.role,
    ?_, rfl, rfl, rfl, ?_, rfl, rfl, rfl, rfl, rfl⟩
  · unfold postAuthSignup
    simp [hv, hfind]
  · have hfind2 : (st.users ++ [UserRec.mk st.nextId r.email (bcryptHash r.password)
        r.role r.name r.additionalInfo r.degree r.department]).find?
          (fun x => x.email == r.email) =
        some (UserRec.mk st.nextId r.email (bcryptHash r.password) r.role r.name
          r.additionalInfo r.degree r.department) := by
      rw [List.find?_append, hfind]
      simp [List.find?]
    unfold postAuthLogin
    simp [hmail, hfind2, bcryptCompare]

/-- Witness for C4: a concrete signup on an empty store followed by a
login with the same credentials. -/
theorem c4_signup_then_login_witness :
    signupValid ⟨"a@b.com", "secret1", "student", "Ada", "", "BCA", "CS"⟩ = true ∧
    (∀ u ∈ (Store.mk [] [] [] [] [] 5).users,
      u.email ≠ ("a@b.com" : String)) ∧
    (∃ (tok1 : Token) (st' : Store) (u : UserRec) (tok2 : Token),
      postAuthSignup "sec" 0 (Store.mk [] [] [] [] [] 5)
          ⟨"a@b.com", "secret1", "student", "Ada", "", "BCA", "CS"⟩ =
        (.created tok1 "student" "Ada", st') ∧
      signupStatus (.created tok1 "student" "Ada") = 201 ∧
      st'.users = (Store.mk [] [] [] [] [] 5).users ++ [u] ∧ u.role = "student" ∧
      postAuthLogin "sec" 7 st' ⟨"a@b.com", "secret1", "student"⟩ =
        .success tok2 "student" "Ada" ∧
      loginStatus (.success tok2 "student" "Ada") = 200 ∧
      tok2.userId = u.id ∧ tok2.role = u.role ∧
      tok1.userId = u.id ∧ tok1.role = u.role) :=
  ⟨by decide, (by intro u hu; cases hu),
    c4_signup_then_login_roundtrip "sec" 0 7 (Store.mk [] [] [] [] [] 5)
      ⟨"a@b.com", "secret1", "student", "Ada", "", "BCA", "CS"⟩
      (by decide) (by intro u hu; cases hu)⟩

/-- Claim C5.  A unit update issued by a caller who is not the creator of
the targeted subject answers 404 and leaves the store exactly unchanged:
the `findOneAndUpdate` filter requires both the subject id and the
caller as creator (User.js lines 338-345). -/
theorem c5_non_creator_unit_update_rejected (st : Store) (a b sid : Nat)
    (s : SubjectRec) (units : List UnitRec)
    (_hmem : s ∈ st.subjects) (_hid : s.id = sid) (_hcr : s.creator = a)
    (huniq : ∀ t ∈ st.subjects, t.id = sid → t.creator = a)
    (hab : b ≠ a) :
    putSubjectUnits st b sid units =
      (.error (404, "Subject not found or you do not have permission to update it"),
        st) := by
  have hall : ∀ t ∈ st.subjects,
      ((fun x : SubjectRec => x.id == sid && x.creator == b) t) = false := by
    intro t ht
    by_cases h : t.id = sid
    · have hc : t.creator = a := huniq t ht h
      simp only [h, hc, beq_self_eq_true, Bool.true_and]
      exact beq_eq_false_iff_ne.mpr (Ne.symm hab)
    · simp [h]
  have hupd := updateFirst_of_all_neg
    (fun x : SubjectRec => x.id == sid && x.creator == b)
    (fun x => { x with units := units }) st.subjects hall
  unfold putSubjectUnits
  rw [hupd]

/-- Witness for C5: teacher 2 attempts to update the units of a subject
created by teacher 1; the call answers 404 and the store is unchanged. -/
theorem c5_non_creator_update_witness :
    (⟨10, "DSA", "BCA", "CS", 1, []⟩ : SubjectRec) ∈
      (Store.mk [] [⟨10, "DSA", "BCA", "CS", 1, []⟩] [] [] [] 11).subjects ∧
    (⟨10, "DSA", "BCA", "CS", 1, []⟩ : SubjectRec).id = 10 ∧
    (⟨10, "DSA", "BCA", "CS", 1, []⟩ : SubjectRec).creator = 1 ∧
    (∀ t ∈ (Store.mk [] [⟨10, "DSA", "BCA", "CS", 1, []⟩] [] [] [] 11).subjects,
      t.id = 10 → t.creator = 1) ∧
    (2 : Nat) ≠ 1 ∧
    putSubjectUnits (Store.mk [] [⟨10, "DSA", "BCA", "CS", 1, []⟩] [] [] [] 11)
        2 10 [⟨"hacked", []⟩] =
      (.error (404, "Subject not found or you do not have permission to update it"),
        Store.mk [] [⟨10, "DSA", "BCA", "CS", 1, []⟩] [] [] [] 11) :=
  ⟨by decide, rfl, rfl, by decide, by decide,
    c5_non_creator_unit_update_rejected
      (Store.mk [] [⟨10, "DSA", "BCA", "CS", 1, []⟩] [] [] [] 11) 1 2 10
      ⟨10, "DSA", "BCA", "CS", 1, []⟩ [⟨"hacked", []⟩]
      (by decide) rfl rfl (by decide) (by decide)⟩

/-- Claim C2, counterexample.  A student whose degree is `BCA` and
department `CS` lists subjects through `GET /api/subjects/:role` with
`role=student`; the route runs an unfiltered `Subject.find()` (User.js
line 323) and hands back a subject of a different degree and
department. -/
theorem c2_counterexample_role_route_unscoped :
    getSubjectsByRole
      (Store.mk [⟨1, "s@x.com", "h", "student", "Stu", "", "BCA", "CS"⟩]
        [⟨10, "Calculus", "MSc", "Maths", 2, []⟩] [] [] [] 11) 1 "student" =
      .ok [⟨10, "Calculus", "MSc", "Maths", 2, []⟩] ∧
    (⟨10, "Calculus", "MSc", "Maths", 2, []⟩ : SubjectRec).degree ≠
      (⟨1, "s@x.com", "h", "student", "Stu", "", "BCA", "CS"⟩ : UserRec).degree ∧
    (⟨10, "Calculus", "MSc", "Maths", 2, []⟩ : SubjectRec).department ≠
      (⟨1, "s@x.com", "h", "student", "Stu", "", "BCA", "CS"⟩ : UserRec).department :=
  ⟨by decide, by decide, by decide⟩

/-- Claim C2, amended.  The student-facing listings
`GET /api/subjects/student` and `GET /api/subjects` return only subjects
whose degree and department equal the caller's own, but
`GET /api/subjects/:role` with `role=student` returns the entire subject
collection with no degree/department scoping. -/
theorem c2_amended_student_listing_scoping (st : Store) (uid : Nat) (u : UserRec)
    (hfind : st.users.find? (fun x => x.id == uid) = some u)
    (hrole : u.role ≠ "teacher") :
    (∃ l, getSubjectsStudent st uid = .ok l ∧
      ∀ s ∈ l, s.degree = u.degree ∧ s.department = u.department) ∧
    (∃ l, getSubjects st uid = .ok l ∧
      ∀ s ∈ l, s.degree = u.degree ∧ s.department = u.department) ∧
    getSubjectsByRole st uid "student" = .ok st.subjects := by
  have h1 : getSubjectsStudent st uid =
      .ok (st.subjects.filter
        (fun s => s.degree == u.degree && s.department == u.department)) := by
    unfold getSubjectsStudent
    simp [hfind]
  have hteach : (u.role == "teacher") = false := beq_eq_false_iff_ne.mpr hrole
  have h2 : getSubjects st uid =
      .ok (st.subjects.filter
        (fun s => s.degree == u.degree && s.department == u.department)) := by
    unfold getSubjects
    simp [hfind, hteach]
  have hmem : ∀ s ∈ st.subjects.filter
      (fun s => s.degree == u.degree && s.department == u.department),
      s.degree = u.degree ∧ s.department = u.department := by
    intro s hs
    have hp := (List.mem_filter.mp hs).2
    simp [Bool.and_eq_true] at hp
    exact hp
  exact ⟨⟨_, h1, hmem⟩, ⟨_, h2, hmem⟩, rfl⟩

/-- Witness for the amended C2 theorem: a student with one in-scope and
one out-of-scope subject in the store. -/
theorem c2_amended_scoping_witness :
    (Store.mk [⟨1, "s@x.com", "h", "student", "Stu", "", "BCA", "CS"⟩]
        [⟨10, "DSA", "BCA", "CS", 2, []⟩, ⟨11, "Calculus", "MSc", "Maths", 2, []⟩]
        [] [] [] 12).users.find? (fun x => x.id == 1) =
      some ⟨1, "s@x.com", "h", "student", "Stu", "", "BCA", "CS"⟩ ∧
    (⟨1, "s@x.com", "h", "student", "Stu", "", "BCA", "CS"⟩ : UserRec).role ≠ "teacher" ∧
    ((∃ l, getSubjectsStudent
        (Store.mk [⟨1, "s@x.com", "h", "student", "Stu", "", "BCA", "CS"⟩]
          [⟨10, "DSA", "BCA", "CS", 2, []⟩, ⟨11, "Calculus", "MSc", "Maths", 2, []⟩]
          [] [] [] 12) 1 = .ok l ∧
      ∀ s ∈ l, s.degree = (⟨1, "s@x.com", "h", "student", "Stu", "", "BCA", "CS"⟩ : UserRec).degree ∧
        s.department = (⟨1, "s@x.com", "h", "student", "Stu", "", "BCA", "CS"⟩ : UserRec).department) ∧
    (∃ l, getSubjects
        (Store.mk [⟨1, "s@x.com", "h", "student", "Stu", "", "BCA", "CS"⟩]
          [⟨10, "DSA", "BCA", "CS", 2, []⟩, ⟨11, "Calculus", "MSc", "Maths", 2, []⟩]
          [] [] [] 12) 1 = .ok l ∧
      ∀ s ∈ l, s.degree = (⟨1, "s@x.com", "h", "student", "Stu", "", "BCA", "CS"⟩ : UserRec).degree ∧
        s.department = (⟨1, "s@x.com", "h", "student", "Stu", "", "BCA", "CS"⟩ : UserRec).department) ∧
    getSubjectsByRole
        (Store.mk [⟨1, "s@x.com", "h", "student", "Stu", "", "BCA", "CS"⟩]
          [⟨10, "DSA", "BCA", "CS", 2, []⟩, ⟨11, "Calculus", "MSc", "Maths", 2, []⟩]
          [] [] [] 12) 1 "student" =
      .ok (Store.mk [⟨1, "s@x.com", "h", "student", "Stu", "", "BCA", "CS"⟩]
          [⟨10, "DSA", "BCA", "CS", 2, []⟩, ⟨11, "Calculus", "MSc", "Maths", 2, []⟩]
          [] [] [] 12).subjects) :=
  ⟨by decide, by decide,
    c2_amended_student_listing_scoping
      (Store.mk [⟨1, "s@x.com", "h", "student", "Stu", "", "BCA", "CS"⟩]
        [⟨10, "DSA", "BCA", "CS", 2, []⟩, ⟨11, "Calculus", "MSc", "Maths", 2, []⟩]
        [] [] [] 12) 1
      ⟨1, "s@x.com", "h", "student", "Stu", "", "BCA", "CS"⟩
      (by decide) (by decide)⟩

/-- One grade upsert, specified: starting from a store holding at most
one grade document for the `(student, subject)` pair, after the upsert the
store holds exactly one document for the pair and its three score fields
are the submitted values. -/
theorem postGrades_filter (st : Store) (student subject : Nat) (c1 c2 a : Int)
    (h : (st.grades.filter
      (fun g => g.student == student && g.subject == subject)).length ≤ 1) :
    ∃ g : GradeRec,
      ((postGrades st student subject c1 c2 a).2).grades.filter
        (fun g => g.student == student && g.subject == subject) = [g] ∧
      g.student = student ∧ g.subject = subject ∧
      g.cycleTest1 = c1 ∧ g.cycleTest2 = c2 ∧ g.assignments = a := by
  cases hf : st.grades.find? (fun g => g.student == student && g.subject == subject) with
  | none =>
    have hnil : st.grades.filter
        (fun g => g.student == student && g.subject == subject) = [] :=
      List.filter_eq_nil_iff.mpr (List.find?_eq_none.mp hf)
    refine ⟨⟨st.nextId, student, subject, c1, c2, a⟩, ?_, rfl, rfl, rfl, rfl, rfl⟩
    unfold postGrades
    simp [hf, List.filter_append, hnil]
  | some g0 =>
    have hg0mem : g0 ∈ st.grades := List.mem_of_find?_eq_some hf
    have hg0p := List.find?_some hf
    have hfil : st.grades.filter
        (fun g => g.student == student && g.subject == subject) = [g0] := by
      have hmem : g0 ∈ st.grades.filter
          (fun g => g.student == student && g.subject == subject) :=
        List.mem_filter.mpr ⟨hg0mem, hg0p⟩
      cases hl : st.grades.filter
          (fun g => g.student == student && g.subject == subject) with
      | nil => rw [hl] at hmem; cases hmem
      | cons x xs =>
        rw [hl] at h hmem
        have hxs : xs = [] := by
          have hx0 : xs.length = 0 :=
            Nat.le_zero.mp (Nat.le_of_succ_le_succ h)
          exact List.eq_nil_of_length_eq_zero hx0
        subst hxs
        have : g0 = x := by simpa using hmem
        rw [this]
    have hfst := updateFirst_fst
      (fun g : GradeRec => g.student == student && g.subject == subject)
      (fun g => { g with cycleTest1 := c1, cycleTest2 := c2, assignments := a })
      st.grades
    rw [hf] at hfst
    have hflt := updateFirst_filter
      (fun g : GradeRec => g.student == student && g.subject == subject)
      (fun g => { g with cycleTest1 := c1, cycleTest2 := c2, assignments := a })
      (fun x => rfl) st.grades h
    rw [hfil] at hflt
    refine ⟨{ g0 with cycleTest1 := c1, cycleTest2 := c2, assignments := a },
      ?_, ?_, ?_, rfl, rfl, rfl⟩
    · unfold postGrades
      simp only [hf]
      simp at hfst
      simp [hfst, hflt]
    · have := hg0p
      simp [Bool.and_eq_true] at this
      exact this.1
    · have := hg0p
      simp [Bool.and_eq_true] at this
      exact this.2

/-- Claim C6.  Grade upsert is idempotent on the `(student, subject)`
key: two sequential submissions for the same pair, starting from a store
that respects the one-document-per-pair invariant, leave exactly one
grade document for the pair, and its three score fields carry the values
of the later submission (User.js lines 534-559). -/
theorem c6_grade_upsert_idempotent (st : Store) (student subject : Nat)
    (c1 c2 a d1 d2 b : Int)
    (h : (st.grades.filter
      (fun g => g.student == student && g.subject == subject)).length ≤ 1) :
    ∃ g : GradeRec,
      ((postGrades ((postGrades st student subject c1 c2 a).2)
          student subject d1 d2 b).2).grades.filter
        (fun g => g.student == student && g.subject == subject) = [g] ∧
      g.student = student ∧ g.subject = subject ∧
      g.cycleTest1 = d1 ∧ g.cycleTest2 = d2 ∧ g.assignments = b := by
  obtain ⟨g1, hg1, -, -, -, -, -⟩ := postGrades_filter st student subject c1 c2 a h
  have h1 : (((postGrades st student subject c1 c2 a).2).grades.filter
      (fun g => g.student == student && g.subject == subject)).length ≤ 1 := by
    rw [hg1]
    exact Nat.le_refl 1
  exact postGrades_filter _ student subject d1 d2 b h1

/-- Witness for C6: two submissions for the pair `(3, 10)` on a store
with no grade for the pair; one record remains, holding the second
submission's scores. -/
theorem c6_grade_upsert_witness :
    ((Store.mk [] [] [] [] [] 20).grades.filter
      (fun g => g.student == 3 && g.subject == 10)).length ≤ 1 ∧
    (∃ g : GradeRec,
      ((postGrades ((postGrades (Store.mk [] [] [] [] [] 20) 3 10 11 12 7).2)
          3 10 15 16 9).2).grades.filter
        (fun g => g.student == 3 && g.subject == 10) = [g] ∧
      g.student = 3 ∧ g.subject = 10 ∧
      g.cycleTest1 = 15 ∧ g.cycleTest2 = 16 ∧ g.assignments = 9) :=
  ⟨by decide,
    c6_grade_upsert_idempotent (Store.mk [] [] [] [] [] 20) 3 10 11 12 7 15 16 9
      (by decide)⟩

/-- Claim C7.  The deadline sweep returns exactly the caller's
uncompleted, not-yet-notified tasks due strictly within the next 24
hours, and a second sweep run on the resulting store (at any later
moment) returns none of the tasks the first run returned: the first run
marked them `notificationSent`, which the selection excludes (User.js
lines 826-848). -/
theorem c7_deadline_sweep_at_most_once (st : Store) (uid now now2 : Nat)
    (t1 t2 : TaskRec)
    (h1 : t1 ∈ (getTasksCheckDeadlines st uid now).1)
    (h2 : t2 ∈ (getTasksCheckDeadlines
      ((getTasksCheckDeadlines st uid now).2) uid now2).1) :
    (getTasksCheckDeadlines st uid now).1 =
      st.tasks.filter (qualifiesDeadline uid now) ∧
    t2.id ≠ t1.id := by
  refine ⟨rfl, ?_⟩
  intro hid
  simp only [getTasksCheckDeadlines] at h1 h2
  have h2' := List.mem_filter.mp h2
  obtain ⟨t, ht, hmap⟩ := List.mem_map.mp h2'.1
  have hq2 := h2'.2
  by_cases hc : ((st.tasks.filter (qualifiesDeadline uid now)).map
      (fun t => t.id)).contains t.id
  · rw [markSent, if_pos hc] at hmap
    rw [← hmap] at hq2
    simp [qualifiesDeadline] at hq2
  · rw [markSent, if_neg hc] at hmap
    apply hc
    have htid : t.id = t1.id := by rw [hmap]; exact hid
    have ht1 : t1.id ∈ (st.tasks.filter (qualifiesDeadline uid now)).map
        (fun t => t.id) := List.mem_map.mpr ⟨t1, h1, rfl⟩
    rw [htid]
    exact List.contains_iff_exists_mem_beq.mpr ⟨t1.id, ht1, by simp⟩

/-- Witness for C7: task 1 is due inside the first window and is
returned by the first sweep; task 2, due later, is picked up by a second
sweep whose window has moved, and the two returned tasks are distinct. -/
theorem c7_deadline_sweep_witness :
    (⟨1, "due soon", "Academic", "High", 5000, false, 1, false⟩ : TaskRec) ∈
      (getTasksCheckDeadlines
        (Store.mk [] [] [] []
          [⟨1, "due soon", "Academic", "High", 5000, false, 1, false⟩,
           ⟨2, "due later", "Academic", "Low", 90000000, false, 1, false⟩] 3)
        1 1000).1 ∧
    (⟨2, "due later", "Academic", "Low", 90000000, false, 1, false⟩ : TaskRec) ∈
      (getTasksCheckDeadlines
        ((getTasksCheckDeadlines
          (Store.mk [] [] [] []
            [⟨1, "due soon", "Academic", "High", 5000, false, 1, false⟩,
             ⟨2, "due later", "Academic", "Low", 90000000, false, 1, false⟩] 3)
          1 1000).2) 1 5000000).1 ∧
    ((getTasksCheckDeadlines
        (Store.mk [] [] [] []
          [⟨1, "due soon", "Academic", "High", 5000, false, 1, false⟩,
           ⟨2, "due later", "Academic", "Low", 90000000, false, 1, false⟩] 3)
        1 1000).1 =
      (Store.mk [] [] [] []
        [⟨1, "due soon", "Academic", "High", 5000, false, 1, false⟩,
         ⟨2, "due later", "Academic", "Low", 90000000, false, 1, false⟩] 3).tasks.filter
        (qualifiesDeadline 1 1000) ∧
    (⟨2, "due later", "Academic", "Low", 90000000, false, 1, false⟩ : TaskRec).id ≠
      (⟨1, "due soon", "Academic", "High", 5000, false, 1, false⟩ : TaskRec).id) :=
  ⟨by decide, by decide,
    c7_deadline_sweep_at_most_once
      (Store.mk [] [] [] []
        [⟨1, "due soon", "Academic", "High", 5000, false, 1, false⟩,
         ⟨2, "due later", "Academic", "Low", 90000000, false, 1, false⟩] 3)
      1 1000 5000000
      ⟨1, "due soon", "Academic", "High", 5000, false, 1, false⟩
      ⟨2, "due later", "Academic", "Low", 90000000, false, 1, false⟩
      (by decide) (by decide)⟩

/-- The date-rewrite map of the calendar upload, specified on entries
whose dates split on dots into exactly a two-character day, a
two-character month and a year. -/
theorem mapFormatCal_spec (entries : List CalEntry)
    (h : ∀ e ∈ entries, ∃ d m y : String, splitDot e.date = [d, m, y] ∧
      d.length = 2 ∧ m.length = 2) :
    ∃ formatted : List CalEntry, mapFormatCal entries = some formatted ∧
      formatted.length = entries.length ∧
      ∀ p ∈ entries.zip formatted,
        p.2.day = p.1.day ∧ p.2.description = p.1.description ∧
        ∀ d m y : String, splitDot p.1.date = [d, m, y] →
          p.2.date = y ++ "-" ++ m ++ "-" ++ d := by
  induction entries with
  | nil => exact ⟨[], rfl, rfl, by intro p hp; cases hp⟩
  | cons e es ih =>
    obtain ⟨d, m, y, hsplit, hd, hm⟩ := h e (List.mem_cons_self e es)
    obtain ⟨fl, hfl, hlen, hzip⟩ := ih (fun x hx => h x (List.mem_cons_of_mem e hx))
    have hfmt : formatCalDate e.date = some (y ++ "-" ++ m ++ "-" ++ d) := by
      unfold formatCalDate
      simp [hsplit, padStart2, hd, hm]
    refine ⟨{ e with date := y ++ "-" ++ m ++ "-" ++ d } :: fl, ?_, by simp [hlen], ?_⟩
    · simp [mapFormatCal, hfmt, hfl]
    · intro p hp
      cases hp with
      | head =>
        refine ⟨rfl, rfl, ?_⟩
        intro d' m' y' hsp
        rw [hsplit] at hsp
        obtain ⟨hd', hm', hy'⟩ : d = d' ∧ m = m' ∧ y = y' := by
          simpa using hsp
        rw [← hd', ← hm', ← hy']
      | tail _ hmem => exact hzip p hmem

/-- Claim C8.  A teacher's calendar bulk import rewrites each entry's
`DD.MM.YYYY` date to `YYYY-MM-DD` and the resulting calendar collection
is exactly the imported entries: the handler deletes every prior entry
before inserting the rewritten ones (User.js lines 721-761). -/
theorem c8_calendar_upload_normalizes_and_replaces (st : Store)
    (entries : List CalEntry)
    (h : ∀ e ∈ entries, ∃ d m y : String, splitDot e.date = [d, m, y] ∧
      d.length = 2 ∧ m.length = 2) :
    ∃ formatted : List CalEntry,
      postAcademicCalendarUpload st "teacher" entries =
        (.created formatted, { st with calendar := formatted }) ∧
      formatted.length = entries.length ∧
      ∀ p ∈ entries.zip formatted,
        p.2.day = p.1.day ∧ p.2.description = p.1.description ∧
        ∀ d m y : String, splitDot p.1.date = [d, m, y] →
          p.2.date = y ++ "-" ++ m ++ "-" ++ d := by
  obtain ⟨fl, hfl, hlen, hzip⟩ := mapFormatCal_spec entries h
  refine ⟨fl, ?_, hlen, hzip⟩
  unfold postAcademicCalendarUpload
  simp [hfl]

/-- Witness for C8: importing one entry dated `"05.11.2025"` over a
store whose calendar held a different entry. -/
theorem c8_calendar_upload_witness :
    (∀ e ∈ [(⟨"Tuesday", "05.11.2025", "Guest lecture on AI"⟩ : CalEntry)],
      ∃ d m y : String, splitDot e.date = [d, m, y] ∧
        d.length = 2 ∧ m.length = 2) ∧
    (∃ formatted : List CalEntry,
      postAcademicCalendarUpload
          (Store.mk [] [] [] [⟨"Monday", "2020-01-01", "stale"⟩] [] 4) "teacher"
          [⟨"Tuesday", "05.11.2025", "Guest lecture on AI"⟩] =
        (.created formatted,
          { Store.mk [] [] [] [⟨"Monday", "2020-01-01", "stale"⟩] [] 4 with
              calendar := formatted }) ∧
      formatted.length =
        [(⟨"Tuesday", "05.11.2025", "Guest lecture on AI"⟩ : CalEntry)].length ∧
      ∀ p ∈ [(⟨"Tuesday", "05.11.2025", "Guest lecture on AI"⟩ : CalEntry)].zip formatted,
        p.2.day = p.1.day ∧ p.2.description = p.1.description ∧
        ∀ d m y : String, splitDot p.1.date = [d, m, y] →
          p.2.date = y ++ "-" ++ m ++ "-" ++ d) :=
  ⟨by
      intro e he
      have : e = ⟨"Tuesday", "05.11.2025", "Guest lecture on AI"⟩ := by
        simpa using he
      subst this
      exact ⟨"05", "11", "2025", by decide, rfl, rfl⟩,
    c8_calendar_upload_normalizes_and_replaces
      (Store.mk [] [] [] [⟨"Monday", "2020-01-01", "stale"⟩] [] 4)
      [⟨"Tuesday", "05.11.2025", "Guest lecture on AI"⟩]
      (by
        intro e he
        have : e = ⟨"Tuesday", "05.11.2025", "Guest lecture on AI"⟩ := by
          simpa using he
        subst this
        exact ⟨"05", "11", "2025", by decide, rfl, rfl⟩)⟩

end StudentDiary
